import Mathlib

/-!
Verification of the configuration loading and merging engine of
`IPython/config/loader.py` (the `Config` dict subclass, `PyFileConfigLoader`
and `KeyValueConfigLoader`).

The embedding is a shallow one over Python 3 semantics:

* Python values that appear in configurations are the inductive `PyVal`;
  a `Config` instance is represented by its ordered key/value entries
  (`Entries`), an association list mirroring Python 3 dict insertion order.
* Exceptions are `PyErr`; a fallible operation returns `Except PyErr`.
* `loader.py` imports the module `builtins` (line 21), but the bodies of
  `Config.__getitem__` (line 133) and `Config.__setitem__` (line 148) refer
  to the *unbound* name `__builtin__`, which in Python 3 raises `NameError`
  when evaluated.  To keep that one lexical fact separate from the rest of
  each method's logic, every `Config` operation is parameterised over
  `bl : String → Except PyErr PyVal`, the evaluation of
  `getattr(<the name written in the source>, key)`:
  - `builtinUnbound` is the code as written: evaluating `__builtin__`
    raises `NameError` whatever the key;
  - `builtinModule` is the reading the module's own `import builtins`,
    the surrounding comments (lines 128-131, 147) and the doctest at
    lines 365-368 assume: delegation to the `builtins` module.
  Theorems below are stated about `builtinUnbound` (the source as written)
  and, where a claim needs the documented intent separated from the slip,
  also about `builtinModule`.
-/

/-- A Python value as the configuration engine sees one.  `vDict` is a plain
`dict`, `vConfig` a `Config` instance (a `dict` subclass: `isinstance(v,
dict)` holds for both, `isinstance(v, Config)` only for `vConfig`).
`vBuiltin s` stands for the object `getattr(builtins, s)` (a builtin
function or similar opaque object). -/
inductive PyVal where
  | vNone
  | vBool (b : Bool)
  | vInt (n : Int)
  | vStr (s : String)
  | vBuiltin (name : String)
  | vDict (entries : List (String × PyVal))
  | vConfig (entries : List (String × PyVal))

/-- The entries of a `Config` (or plain dict): an association list in
insertion order, Python 3 dict semantics. -/
abbrev Entries := List (String × PyVal)

/-- The Python exceptions this code can raise, each carrying just enough data
to identify the raise site.  `nameError n`: the unbound name `n` was
evaluated.  `ioError f`: `IOError` from `filefind` failing on filename `f`
(the spec calls this `FileNotFound`).  `configError k` / `valueError k`:
the two raises of `Config.__setitem__`, carrying the offending key.
`recursionError`: Python's stack limit, used as the fuel-exhaustion outcome
of unboundedly recursive `load_subconfig` chains. -/
inductive PyErr where
  | nameError (n : String)
  | attributeError (n : String)
  | keyError (k : String)
  | typeError
  | syntaxError
  | configError (k : String)
  | valueError (k : String)
  | argumentError (msg : String)
  | ioError (fname : String)
  | recursionError

/-- Raw `dict.__getitem__`-style lookup (first, and only, binding of a key). -/
def dictGet : Entries → String → Option PyVal
  | [], _ => none
  | (k₀, v₀) :: rest, k => if k₀ == k then some v₀ else dictGet rest k

/-- Raw `dict.__setitem__`: replace in place if the key is present (keeping
its position, Python 3 dict semantics), else append. -/
def dictSet : Entries → String → PyVal → Entries
  | [], k, v => [(k, v)]
  | (k₀, v₀) :: rest, k, v =>
    if k₀ == k then (k₀, v) :: rest else (k₀, v₀) :: dictSet rest k v

/-- Raw `dict.update(news)`: `dictSet` each entry of `news` in order. -/
def dictUpdate (base news : Entries) : Entries :=
  news.foldl (fun acc kv => dictSet acc kv.1 kv.2) base

/-- `Config._is_section_key` (loader.py lines 92-96):
`key[0].upper() == key[0] and not key.startswith('_')`.  For a nonempty key,
`startswith('_')` is exactly "first character is `'_'`".  Python raises
`IndexError` on the empty key (`key[0]`); the empty key occurs nowhere in
this development, and the `[]` branch is an arbitrary total completion.
`Char.toUpper` agrees with Python's `str.upper` on ASCII characters, which is
the range the theorems below quantify over. -/
def isSectionKey (key : String) : Bool :=
  match key.data with
  | [] => false
  | c :: _ => (c.toUpper == c) && (c != '_')

/-- A representative finite set of Python 3 builtin names: `hasattr(builtins,
k)` and `getattr(builtins, k)` succeed exactly on the members.  (The real
module has more names; every concrete key the claims exercise is correctly
classified by this list.) -/
def pyBuiltinNames : List String :=
  ["print", "len", "id", "open", "sum", "str", "int", "float", "bool",
   "list", "dict", "set", "tuple", "type", "range", "abs", "min", "max",
   "repr", "hash", "iter", "next", "map", "filter", "zip", "copyright"]

/-- The code as written: `getattr(__builtin__, key)` where `__builtin__` is
an unbound name (the module imports `builtins`, line 21, and never binds
`__builtin__`), so evaluating the expression raises `NameError` before
`getattr` is reached, whatever `key` is. -/
def builtinUnbound : String → Except PyErr PyVal :=
  fun _ => .error (.nameError "__builtin__")

/-- The documented intent: `getattr(builtins, key)`, which returns the
builtin object for a builtin name and raises `AttributeError` otherwise. -/
def builtinModule : String → Except PyErr PyVal :=
  fun key =>
    if pyBuiltinNames.contains key then .ok (.vBuiltin key)
    else .error (.attributeError key)

/-- `hasattr(<builtin source name>, key)` (loader.py line 148): `getattr`
with `AttributeError` turned into `false`.  Evaluating the unbound
`__builtin__` raises before `hasattr` is entered, so other errors
propagate. -/
def hasattrWith (bl : String → Except PyErr PyVal) (key : String) :
    Except PyErr Bool :=
  match bl key with
  | .ok _ => .ok true
  | .error (.attributeError _) => .ok false
  | .error e => .error e

/-- `Config.__contains__` (lines 98-102): `True` for every section key
(whether stored or not), else raw dict containment. -/
def configContains (d : Entries) (key : String) : Bool :=
  isSectionKey key || (dictGet d key).isSome

/-- `Config.__getitem__` (lines 122-144).  First the builtin delegation
(`try: return getattr(__builtin__, key) except AttributeError: pass`); then
for a section key, raw lookup with auto-vivification of an empty `Config` on
`KeyError`; for a non-section key, raw lookup with `KeyError` propagating.
Returns the value together with the (possibly vivified) entries. -/
def getItemWith (bl : String → Except PyErr PyVal) (d : Entries)
    (key : String) : Except PyErr (PyVal × Entries) :=
  match bl key with
  | .ok v => .ok (v, d)
  | .error (.attributeError _) =>
    if isSectionKey key then
      match dictGet d key with
      | some v => .ok (v, d)
      | none => .ok (.vConfig [], dictSet d key (.vConfig []))
    else
      match dictGet d key with
      | some v => .ok (v, d)
      | none => .error (.keyError key)
  | .error e => .error e

/-- `Config.__setitem__` (lines 146-156).  First the builtin-shadowing guard
(`hasattr(__builtin__, key)` → `ConfigError`); then for a section key a
non-`Config` value raises `ValueError` — and, as the source is written, a
`Config` value falls off the `if` without being stored (the
`dict.__setitem__` call is only in the `else` branch, lines 155-156); a
non-section key is stored raw. -/
def setItemWith (bl : String → Except PyErr PyVal) (d : Entries)
    (key : String) (v : PyVal) : Except PyErr Entries :=
  match hasattrWith bl key with
  | .error e => .error e
  | .ok true => .error (.configError key)
  | .ok false =>
    if isSectionKey key then
      match v with
      | .vConfig _ => .ok d
      | _ => .error (.valueError key)
    else .ok (dictSet d key v)

/-- `Config.__getattr__` (lines 158-162): `__getitem__` with `KeyError`
re-raised as `AttributeError`.  (`__setattr__` converts the same way, but
`__setitem__` never raises `KeyError`, so attribute assignment is
`setItemWith` itself.) -/
def getAttrWith (bl : String → Except PyErr PyVal) (d : Entries)
    (key : String) : Except PyErr (PyVal × Entries) :=
  match getItemWith bl d key with
  | .error (.keyError k) => .error (.attributeError k)
  | r => r

mutual

/-- `Config._merge` (lines 77-90).  Walks `other`'s entries: a key not `in`
`self` (note: `__contains__` is never false on a section key) is collected
into `to_update`; an existing key whose incoming value is a `Config` is
merged recursively through `self[k]._merge(v)` (`self[k]` is
`__getitem__`, builtin delegation included; calling `_merge` on a
non-`Config` receiver raises `AttributeError`); any other value is collected
into `to_update`.  Finally `self.update(to_update)` applies raw dict
updates.  Python mutates `self[k]` in place through the alias; here the
merged child is written back at `k`, which is the same mapping when the
structure is a tree (no claim below involves shared sub-objects). -/
def mergeWith (bl : String → Except PyErr PyVal) (self other : Entries) :
    Except PyErr Entries := do
  let (s, tu) ← mergeLoopWith bl self [] other
  .ok (dictUpdate s tu)
termination_by sizeOf other + 1
decreasing_by simp_wf

/-- The `for k, v in other.items()` loop of `Config._merge`, threading
`self` (mutated in place by the recursive branch) and `to_update`. -/
def mergeLoopWith (bl : String → Except PyErr PyVal)
    (self to_update : Entries) :
    List (String × PyVal) → Except PyErr (Entries × Entries)
  | [] => .ok (self, to_update)
  | (k, v) :: rest =>
    if configContains self k then
      match v with
      | .vConfig ve => do
        let (cur, self₁) ← getItemWith bl self k
        match cur with
        | .vConfig ce => do
          let merged ← mergeWith bl ce ve
          mergeLoopWith bl (dictSet self₁ k (.vConfig merged)) to_update rest
        | _ => .error (.attributeError "_merge")
      | _ => mergeLoopWith bl self (dictSet to_update k v) rest
    else
      mergeLoopWith bl self (dictSet to_update k v) rest
termination_by l => sizeOf l
decreasing_by all_goals (simp_wf <;> omega)

end

/-- Attribute assignment along a dotted chain: `self.config.s₁.⋯.sₙ = v`
(Python evaluates the right-hand side first — done by the caller — then the
`getattr` chain `s₁ … sₙ₋₁`, then `setattr` of `sₙ`, which on a `Config` is
`__setitem__`).  Returns the entries together with the error raised, if any;
auto-vivification performed by the chain before an error is kept, mirroring
the mutation of the live objects.  Intermediate write-back at each level
stands in for Python's in-place mutation through the alias.  Attribute
assignment under a non-`Config` intermediate raises `AttributeError`. -/
def setPathWith (bl : String → Except PyErr PyVal) (d : Entries) :
    List String → PyVal → Entries × Option PyErr
  | [], _ => (d, some .typeError)
  | [k], v =>
    match setItemWith bl d k v with
    | .ok d₁ => (d₁, none)
    | .error e => (d, some e)
  | k :: k₂ :: rest, v =>
    match getAttrWith bl d k with
    | .error e => (d, some e)
    | .ok (sub, d₁) =>
      match sub with
      | .vConfig se =>
        let (se₁, err) := setPathWith bl se (k₂ :: rest) v
        (dictSet d₁ k (.vConfig se₁), err)
      | _ => (d₁, some (.attributeError k₂))

/-- Attribute read along a dotted chain `self.config.s₁.⋯.sₙ`, threading the
entries because `__getitem__` auto-vivifies missing sections. -/
def getPathWith (bl : String → Except PyErr PyVal) (d : Entries) :
    List String → Except PyErr (PyVal × Entries)
  | [] => .ok (.vConfig d, d)
  | [k] => getAttrWith bl d k
  | k :: k₂ :: rest =>
    match getAttrWith bl d k with
    | .error e => .error e
    | .ok (sub, d₁) =>
      match sub with
      | .vConfig se =>
        match getPathWith bl se (k₂ :: rest) with
        | .error e => .error e
        | .ok (v, se₁) => .ok (v, dictSet d₁ k (.vConfig se₁))
      | _ => .error (.attributeError k₂)

/-! ### KeyValueConfigLoader (loader.py lines 328-468) -/

/-- Python's `\w` on the ASCII range (`[A-Za-z0-9_]`); every token in this
development is ASCII. -/
def isWordChar (c : Char) : Bool := c.isAlphanum || c == '_'

/-- Split a character list at every occurrence of `sep` (the pieces, in
order, `sep` dropped). -/
def splitOnChar (sep : Char) : List Char → List (List Char)
  | [] => [[]]
  | c :: rest =>
    if c == sep then [] :: splitOnChar sep rest
    else
      match splitOnChar sep rest with
      | [] => [[c]]
      | seg :: segs => (c :: seg) :: segs

/-- Split at the first occurrence of `sep` only: `none` when `sep` does not
occur. -/
def splitAtFirst (sep : Char) : List Char → Option (List Char × List Char)
  | [] => none
  | c :: rest =>
    if c == sep then some ([], rest)
    else (splitAtFirst sep rest).map (fun p => (c :: p.1, p.2))

/-- The dotted segments of an assignment's left-hand side
(`lhs.split('.')` as attribute segments). -/
def dotSegs (lhs : String) : List String :=
  (splitOnChar '.' lhs.data).map String.mk

/-- The dotted left-hand shape `[A-Za-z]\w*(\.\w+)*` matched in full. -/
def kvLhsOk (pre : List Char) : Bool :=
  match splitOnChar '.' pre with
  | [] => false
  | first :: others =>
    (match first with
     | [] => false
     | c :: rest => c.isAlpha && rest.all isWordChar) &&
    others.all (fun seg => seg ≠ [] && seg.all isWordChar)

/-- `kv_pattern.match(item)` (line 328: `[A-Za-z]\w*(\.\w+)*\=.*`, matched as
a prefix from the start): succeeds exactly when the item contains `=` and the
text before the first `=` matches the dotted shape in full (the regex's `=`
can only be the item's first `=`, since the preceding pieces consume only
word characters and dots). -/
def isKvToken (s : String) : Bool :=
  match splitAtFirst '=' s.data with
  | some (pre, _) => kvLhsOk pre
  | none => false

/-- `item.split('=', 1)`. -/
def splitEq (s : String) : String × String :=
  match splitAtFirst '=' s.data with
  | some (pre, post) => (String.mk pre, String.mk post)
  | none => (s, "")

/-- `flag_pattern.match(item)` (line 329: `\-\-\w+(\-\w)*` as a prefix
match): two dashes followed by at least one word character. -/
def isFlagToken (s : String) : Bool :=
  match s.data with
  | '-' :: '-' :: c :: _ => isWordChar c
  | _ => false

/-- `item.startswith('-')`. -/
def startsWithDash (s : String) : Bool :=
  match s.data with
  | '-' :: _ => true
  | _ => false

/-- A Python identifier (what `compile` accepts as an attribute segment of
`self.config.<lhs>`); keywords are not modelled — no claim uses one. -/
def isPyIdent (seg : String) : Bool :=
  match seg.data with
  | [] => false
  | c :: rest => (c.isAlpha || c == '_') && rest.all isWordChar

/-- Python's `repr` of a quote-free string, as `"%r" % item` renders the
offending token inside error messages. -/
def pyRepr (s : String) : String := "'" ++ s ++ "'"

/-- The numeric value of a digit string (helper for the literal
evaluator). -/
def digitsToNat (cs : List Char) : Nat :=
  cs.foldl (fun n c => 10 * n + (c.toNat - 48)) 0

/-- The host literal evaluator applied to the right-hand side of
`self.config.<lhs>=<rhs>` (spec §6: integers, quoted strings, booleans,
`None`; exactly the forms this development exercises).  A bare word is an
undefined name (`NameError`), an empty or malformed remainder a
`SyntaxError` — the two exceptions lines 441-447 catch and retry on. -/
def pyEval (rhs : String) : Except PyErr PyVal :=
  let cs := rhs.data
  if cs = [] then .error .syntaxError
  else if rhs = "True" then .ok (.vBool true)
  else if rhs = "False" then .ok (.vBool false)
  else if rhs = "None" then .ok .vNone
  else if cs.all Char.isDigit then .ok (.vInt (Int.ofNat (digitsToNat cs)))
  else if cs.length ≥ 2 && cs.head? == some '\'' && cs.getLast? == some '\'' &&
          ((cs.drop 1).dropLast.all (fun c => c != '\'')) then
    .ok (.vStr (String.mk ((cs.drop 1).dropLast)))
  else match cs with
    | c :: _ => if c.isAlpha || c == '_' then .error (.nameError rhs)
                else .error .syntaxError
    | [] => .error .syntaxError

/-- Which exceptions the `try`/`except (NameError, SyntaxError)` of lines
436-441 catches. -/
def isNameOrSyntax : PyErr → Bool
  | .nameError _ => true
  | .syntaxError => true
  | _ => false

/-- Lines 430-447: one assignment token.  `exec('self.config.<lhs>=<rhs>')`
— compile fails with `SyntaxError` when a segment is not an identifier (and
the retry, which keeps the same left-hand side, fails the same way);
otherwise the right-hand side is evaluated, then the attribute chain is
assigned.  On `NameError` or `SyntaxError` the assignment is retried from
the current state with `repr(rhs)`, i.e. the raw right-hand text as a string
literal; an error of the retry (or any other error of the first attempt)
propagates. -/
def kvAssignWith (bl : String → Except PyErr PyVal) (cfg : Entries)
    (lhs rhs : String) : Entries × Option PyErr :=
  let segs := dotSegs lhs
  if segs.all isPyIdent then
    let attempt :=
      match pyEval rhs with
      | .ok v => setPathWith bl cfg segs v
      | .error e => (cfg, some e)
    match attempt with
    | (cfg₁, none) => (cfg₁, none)
    | (cfg₁, some e) =>
      if isNameOrSyntax e then setPathWith bl cfg₁ segs (.vStr rhs)
      else (cfg₁, some e)
  else (cfg, some .syntaxError)

/-- The per-loader state `KeyValueConfigLoader.clear` resets: the
accumulating config and the extra (positional) arguments. -/
structure KVState where
  config : Entries
  extra_args : List String

/-- Lines 433-434: `if lhs in aliases: lhs = aliases[lhs]`. -/
def lookupAlias (aliases : List (String × String)) (lhs : String) : String :=
  match aliases.lookup lhs with
  | some full => full
  | none => lhs

/-- Lines 454-458: a triggered flag whose payload is a dict or `Config` is
applied section-wise — for each top-level `(sec, c)` of the payload,
`self.config[sec].update(c)`: item access (builtin delegation and
auto-vivification included), then a raw shallow `dict.update`.  A
non-dict-like `self.config[sec]` has no `update` (`AttributeError`); a
non-dict-like payload section is not acceptable to `update`
(`TypeError`). -/
def applyFlagWith (bl : String → Except PyErr PyVal) (st : KVState) :
    List (String × PyVal) → KVState × Option PyErr
  | [] => (st, none)
  | (sec, c) :: rest =>
    match getItemWith bl st.config sec with
    | .error e => (st, some e)
    | .ok (cur, cfg₁) =>
      match cur with
      | .vConfig ce =>
        match c with
        | .vDict news =>
          applyFlagWith bl ⟨dictSet cfg₁ sec (.vConfig (dictUpdate ce news)), st.extra_args⟩ rest
        | .vConfig news =>
          applyFlagWith bl ⟨dictSet cfg₁ sec (.vConfig (dictUpdate ce news)), st.extra_args⟩ rest
        | _ => (⟨cfg₁, st.extra_args⟩, some .typeError)
      | .vDict ce =>
        match c with
        | .vDict news =>
          applyFlagWith bl ⟨dictSet cfg₁ sec (.vDict (dictUpdate ce news)), st.extra_args⟩ rest
        | .vConfig news =>
          applyFlagWith bl ⟨dictSet cfg₁ sec (.vDict (dictUpdate ce news)), st.extra_args⟩ rest
        | _ => (⟨cfg₁, st.extra_args⟩, some .typeError)
      | _ => (⟨cfg₁, st.extra_args⟩, some (.attributeError "update"))

/-- One token of `KeyValueConfigLoader.load_config`'s loop (lines 429-467),
in the source's classification order: assignment token, flag token,
other dash-prefixed token, extra argument.  The flags table maps a flag
name to its payload (the first component of the `(cfg, help)` pair; the
help text never reaches the logic).  A missing flag name — `flags.get(m,
(None, None))` leaving `cfg is None` — raises the unrecognized-flag
`ArgumentError` (line 453) before any state is touched.  A payload that is
neither `None` nor dict-like reaches line 460, which itself evaluates the
unbound name `flag` (`%flag` — the variable in scope is `item`), a
`NameError`. -/
def stepTokenWith (bl : String → Except PyErr PyVal)
    (aliases : List (String × String)) (flags : List (String × PyVal))
    (st : KVState) (t : String) : KVState × Option PyErr :=
  if isKvToken t then
    let (lhs₀, rhs) := splitEq t
    let lhs := lookupAlias aliases lhs₀
    let (cfg, err) := kvAssignWith bl st.config lhs rhs
    ({ st with config := cfg }, err)
  else if isFlagToken t then
    let m := String.mk (t.data.drop 2)
    match flags.lookup m with
    | none => (st, some (.argumentError ("Unrecognized flag: " ++ pyRepr t)))
    | some .vNone => (st, some (.argumentError ("Unrecognized flag: " ++ pyRepr t)))
    | some (.vDict secs) => applyFlagWith bl st secs
    | some (.vConfig secs) => applyFlagWith bl st secs
    | some _ => (st, some (.nameError "flag"))
  else if startsWithDash t then
    (st, some (.argumentError ("Invalid argument: " ++ pyRepr t)))
  else
    ({ st with extra_args := st.extra_args ++ [t] }, none)

/-- The token loop.  On an exception the loop aborts; the pair carries the
loader's surviving state at that point (`self.config` / `self.extra_args`
persist on the loader object when `load_config` raises). -/
def runTokensWith (bl : String → Except PyErr PyVal)
    (aliases : List (String × String)) (flags : List (String × PyVal)) :
    KVState → List String → KVState × Option PyErr
  | st, [] => (st, none)
  | st, t :: ts =>
    match stepTokenWith bl aliases flags st t with
    | (st₁, none) => runTokensWith bl aliases flags st₁ ts
    | (st₁, some e) => (st₁, some e)

/-- `KeyValueConfigLoader.load_config(argv, aliases, flags)`: `clear()`
(fresh config, empty extra args), then the token loop.  `none` in the second
component means the call returned `st.config`; `some e` that it raised
`e`. -/
def kvLoadConfigWith (bl : String → Except PyErr PyVal)
    (aliases : List (String × String)) (flags : List (String × PyVal))
    (argv : List String) : KVState × Option PyErr :=
  runTokensWith bl aliases flags ⟨[], []⟩ argv

/-! ### PyFileConfigLoader (loader.py lines 233-318) -/

/-- A statement of a configuration script as executed in the restricted
namespace (spec §4.3, §6): an attribute assignment on the object
`get_config()` returns (`c.s₁.⋯.sₙ = v`, modelled after evaluation of the
right-hand side to a value), or a call `load_subconfig(fname, profile)`. -/
inductive Stmt where
  | assign (path : List String) (v : PyVal)
  | loadSub (fname : String) (profile : Option String)

/-- A configuration script: its statements in order. -/
abbrev Script := List Stmt

/-- The external collaborators of `PyFileConfigLoader` (spec §6), neither of
which lives in `loader.py`: `find f p` combines `filefind(f, p)` with
reading and parsing the found file — `none` is `filefind` raising `IOError`
("FileNotFound": the search path `p` is exhausted for `f`); `profileDir pr`
is `ProfileDir.find_profile_dir_by_name(get_ipython_dir(), pr)` — `none` is
`ProfileDirError`, `some loc` the profile directory's location, used as the
sub-loader's search path. -/
structure PyEnv where
  find : String → Option String → Option Script
  profileDir : String → Option String

/-- Execute one statement against the loader's config, with `subLoad` the
recursive entry point `load_subconfig` uses for the sub-file (a
`PyFileConfigLoader` at the remaining call-stack depth).  `assign`: the
attribute chain on `get_config()`'s result; an exception propagates.
`loadSub` (the `load_subconfig` closure, lines 282-304): with a profile,
resolve the profile directory — `ProfileDirError` returns silently — and
use its location as the sub-loader's search path, else use the parent's
path; then load the sub-file, passing silently on `IOError` (the optional
overlay is absent), and on success merge the sub-config into the parent's
config with `Config._merge`. -/
def execStmtGen (bl : String → Except PyErr PyVal) (env : PyEnv)
    (subLoad : String → Option String → Except PyErr Entries)
    (path : Option String) (cfg : Entries) : Stmt → Except PyErr Entries
  | .assign segs v =>
    match setPathWith bl cfg segs v with
    | (cfg₁, none) => .ok cfg₁
    | (_, some e) => .error e
  | .loadSub fname profile =>
    match profile with
    | some pr =>
      match env.profileDir pr with
      | none => .ok cfg
      | some loc =>
        match subLoad fname (some loc) with
        | .error (.ioError _) => .ok cfg
        | .error e => .error e
        | .ok sub => mergeWith bl cfg sub
    | none =>
      match subLoad fname path with
      | .error (.ioError _) => .ok cfg
      | .error e => .error e
      | .ok sub => mergeWith bl cfg sub

/-- Execute a script's statements in order; an exception from a statement
propagates out of `load_config`. -/
def execScriptGen (bl : String → Except PyErr PyVal) (env : PyEnv)
    (subLoad : String → Option String → Except PyErr Entries)
    (path : Option String) : Entries → List Stmt → Except PyErr Entries
  | cfg, [] => .ok cfg
  | cfg, stmt :: rest =>
    match execStmtGen bl env subLoad path cfg stmt with
    | .error e => .error e
    | .ok cfg₁ => execScriptGen bl env subLoad path cfg₁ rest

/-- `PyFileConfigLoader.load_config` (lines 257-263): `clear()` (fresh empty
config), `_find_file` (`filefind`, raising `IOError` when the search is
exhausted), then `_read_file_as_dict` (execute the script; the namespace
exposes `get_config` and `load_subconfig`).  `_convert_to_config` (lines
316-318) constructs — but never raises — an exception, a no-op.  The `Nat`
is fuel standing for Python's call stack: scripts can recurse through
`load_subconfig` without bound (spec §5), and a claim instantiates the fuel
above its scenario's finite depth. -/
def pyLoadConfigWith (bl : String → Except PyErr PyVal) (env : PyEnv) :
    Nat → String → Option String → Except PyErr Entries
  | 0, _, _ => .error .recursionError
  | Nat.succ fuel, fname, path =>
    match env.find fname path with
    | none => .error (.ioError fname)
    | some script => execScriptGen bl env (pyLoadConfigWith bl env fuel) path [] script

/-! ### Concrete scenarios used by the claims -/

/-- `isinstance(v, Config)`. -/
def isVConfig : PyVal → Bool
  | .vConfig _ => true
  | _ => false

/-- The leaf at `cfg[sec][k]` when `cfg[sec]` is a stored section: a reading
aid for stating results about nested configs. -/
def sectionLeaf (cfg : Entries) (sec k : String) : Option PyVal :=
  match dictGet cfg sec with
  | some (.vConfig e) => dictGet e k
  | _ => none

/-- The base script of the recursive-subconfig scenario:
`c = get_config(); c.A.x = 1; load_subconfig('child.py')`. -/
def c1Base : Script := [.assign ["A", "x"] (.vInt 1), .loadSub "child.py" none]

/-- The child script: `c.A.x = 2; c.A.y = 3`. -/
def c1Child : Script := [.assign ["A", "x"] (.vInt 2), .assign ["A", "y"] (.vInt 3)]

/-- The filesystem of the recursive-subconfig scenario: both scripts
resolvable on any search path. -/
def c1Env : PyEnv :=
  { find := fun f _ =>
      if f == "base.py" then some c1Base
      else if f == "child.py" then some c1Child
      else none,
    profileDir := fun _ => none }

/-- A filesystem where only `top.py` exists, and its script only calls
`load_subconfig('missing.py')` on an absent file. -/
def c7Env : PyEnv :=
  { find := fun f _ =>
      if f == "top.py" then some [.loadSub "missing.py" none] else none,
    profileDir := fun _ => none }

/-! ### Helper lemmas -/

/-- Raw dict store followed by raw lookup of the same key. -/
theorem dictGet_dictSet_self (d : Entries) (k : String) (v : PyVal) :
    dictGet (dictSet d k v) k = some v := by
  induction d with
  | nil => simp [dictSet, dictGet]
  | cons hd tl ih =>
    obtain ⟨k₀, v₀⟩ := hd
    by_cases h : (k₀ == k) = true <;> simp [dictSet, dictGet, h, ih]

/-- A token prefix the loop consumes without an exception just advances the
loader state. -/
theorem runTokensWith_append (bl : String → Except PyErr PyVal)
    (aliases : List (String × String)) (flags : List (String × PyVal))
    (pre l : List String) (st st₁ : KVState)
    (h : runTokensWith bl aliases flags st pre = (st₁, none)) :
    runTokensWith bl aliases flags st (pre ++ l) =
      runTokensWith bl aliases flags st₁ l := by
  induction pre generalizing st with
  | nil =>
    simp only [runTokensWith] at h
    obtain ⟨rfl, -⟩ := Prod.mk.injEq .. ▸ h
    simp
  | cons t ts ih =>
    rw [List.cons_append]
    simp only [runTokensWith] at h ⊢
    cases hstep : stepTokenWith bl aliases flags st t with
    | mk st' e =>
      rw [hstep] at h
      cases e with
      | none => exact ih st' h
      | some e' => simp at h

/-! ### The claims -/

/-- C1 (counterexample): in the scenario — base script assigns `A.x = 1`
then `load_subconfig('child.py')`, child assigns `A.x = 2` and `A.y = 3` —
the code as written returns no config at all: executing the base script's
first assignment evaluates the unbound name `__builtin__` inside
`Config.__getitem__` and `load_config` raises `NameError`.  And under the
module's documented builtins reading, the returned config has `A.x == 2`,
not `1`: `self.config._merge(sub_config)` lets the subconfig's leaf
overwrite the parent's pre-existing leaf. -/
theorem c1_subconfig_counterexample :
    pyLoadConfigWith builtinUnbound c1Env 9 "base.py" none =
      .error (.nameError "__builtin__")
    ∧ (match pyLoadConfigWith builtinModule c1Env 9 "base.py" none with
       | .ok cfg => sectionLeaf cfg "A" "x"
       | .error _ => none) = some (.vInt 2) := by
  refine ⟨rfl, ?_⟩
  simp [pyLoadConfigWith, execScriptGen, execStmtGen, c1Env, c1Base, c1Child,
        setPathWith, getAttrWith, getItemWith, setItemWith, hasattrWith, builtinModule,
        pyBuiltinNames, isSectionKey, dictGet, dictSet, dictUpdate, sectionLeaf,
        mergeWith, mergeLoopWith, configContains, bind, Except.bind]

/-- C1 (amended): the claim's scenario, settled against the code.  As
written, `PyFileConfigLoader.load_config` raises `NameError` at the base
script's first assignment (`Config.__getitem__`/`__setitem__` evaluate the
unbound name `__builtin__`; line 21 imports `builtins`).  Reading
`__builtin__` as that module, the load succeeds but the merge direction is
the opposite of the claim's: `Config._merge` folds the subconfig into the
parent with the subconfig's value winning at existing leaves, so the result
satisfies `A.x == 2` (child overwrites the parent's pre-existing leaf) and
`A.y == 3` (child's new key merged in). -/
theorem c1_subconfig_amended :
    pyLoadConfigWith builtinUnbound c1Env 9 "base.py" none =
      .error (.nameError "__builtin__")
    ∧ pyLoadConfigWith builtinModule c1Env 9 "base.py" none =
      .ok [("A", .vConfig [("x", .vInt 2), ("y", .vInt 3)])] := by
  refine ⟨rfl, ?_⟩
  simp [pyLoadConfigWith, execScriptGen, execStmtGen, c1Env, c1Base, c1Child,
        setPathWith, getAttrWith, getItemWith, setItemWith, hasattrWith, builtinModule,
        pyBuiltinNames, isSectionKey, dictGet, dictSet, dictUpdate,
        mergeWith, mergeLoopWith, configContains, bind, Except.bind]

/-- C2 (counterexample): the spec's own first example — merging
`{"A": {"x": 1}}` into `{"A": {"y": 2}}` — does not yield the deep union in
the code as written: the recursive branch evaluates `self["A"]`, i.e.
`Config.__getitem__`, whose first statement evaluates the unbound name
`__builtin__`, so `_merge` raises `NameError`.  Separately, the claim's
"otherwise B's value overwrites A's" is false even under the builtins
reading when A holds a leaf and B a section: `_merge` dispatches on B's
value alone (`isinstance(v, Config)`) and calls `_merge` on the `int`
stored in A, an `AttributeError`, instead of overwriting. -/
theorem c2_merge_counterexample :
    mergeWith builtinUnbound [("A", .vConfig [("y", .vInt 2)])]
        [("A", .vConfig [("x", .vInt 1)])] =
      .error (.nameError "__builtin__")
    ∧ mergeWith builtinModule [("A", .vInt 7)] [("A", .vConfig [("x", .vInt 1)])] =
      .error (.attributeError "_merge") := by
  constructor
  · simp [mergeWith, mergeLoopWith, getItemWith, builtinUnbound, configContains,
          isSectionKey, dictGet, dictSet, dictUpdate, bind, Except.bind]
  · simp [mergeWith, mergeLoopWith, getItemWith, builtinModule, pyBuiltinNames,
          configContains, isSectionKey, dictGet, dictSet, dictUpdate, bind, Except.bind]

/-- C2 (amended): what `Config._merge` does.  For any builtin-lookup
reading: a key not `in` `self` is copied in, and an existing key whose
incoming value is not a `Config` is overwritten — both through the raw
`self.update(to_update)`.  Under the builtins reading the spec's two
examples hold as stated.  As written, any merge that must recurse into an
existing section raises `NameError` (`self[k]` evaluates the unbound
`__builtin__`), and even under the builtins reading a key holding a leaf in
A and a section in B raises `AttributeError` (recursion is attempted on the
leaf) rather than overwriting. -/
theorem c2_merge_amended :
    (∀ (bl : String → Except PyErr PyVal) (self : Entries) (k : String) (v : PyVal),
      configContains self k = false →
      mergeWith bl self [(k, v)] = .ok (dictSet self k v))
    ∧ (∀ (bl : String → Except PyErr PyVal) (self : Entries) (k : String) (v : PyVal),
      configContains self k = true → isVConfig v = false →
      mergeWith bl self [(k, v)] = .ok (dictSet self k v))
    ∧ mergeWith builtinModule [("A", .vConfig [("y", .vInt 2)])]
        [("A", .vConfig [("x", .vInt 1)])] =
      .ok [("A", .vConfig [("y", .vInt 2), ("x", .vInt 1)])]
    ∧ mergeWith builtinModule [("A", .vConfig [("x", .vInt 1)])]
        [("A", .vConfig [("x", .vInt 9)])] =
      .ok [("A", .vConfig [("x", .vInt 9)])]
    ∧ mergeWith builtinUnbound [("A", .vConfig [("y", .vInt 2)])]
        [("A", .vConfig [("x", .vInt 1)])] =
      .error (.nameError "__builtin__")
    ∧ mergeWith builtinModule [("A", .vInt 7)] [("A", .vConfig [("x", .vInt 1)])] =
      .error (.attributeError "_merge") := by
  refine ⟨?_, ?_, ?_, ?_, ?_, ?_⟩
  · intro bl self k v h
    rw [mergeWith, mergeLoopWith.eq_def]
    simp [h, mergeLoopWith.eq_1, dictUpdate, dictSet, bind, Except.bind]
  · intro bl self k v h hv
    rw [mergeWith, mergeLoopWith.eq_def]
    cases v <;>
      simp_all [isVConfig, mergeLoopWith.eq_1, dictUpdate, dictSet, bind, Except.bind]
  · simp [mergeWith, mergeLoopWith, getItemWith, builtinModule, pyBuiltinNames,
          configContains, isSectionKey, dictGet, dictSet, dictUpdate, bind, Except.bind]
  · simp [mergeWith, mergeLoopWith, getItemWith, builtinModule, pyBuiltinNames,
          configContains, isSectionKey, dictGet, dictSet, dictUpdate, bind, Except.bind]
  · simp [mergeWith, mergeLoopWith, getItemWith, builtinUnbound, configContains,
          isSectionKey, dictGet, dictSet, dictUpdate, bind, Except.bind]
  · simp [mergeWith, mergeLoopWith, getItemWith, builtinModule, pyBuiltinNames,
          configContains, isSectionKey, dictGet, dictSet, dictUpdate, bind, Except.bind]

/-- C2 (witness): the amended theorem's universally quantified parts applied
at concrete inputs — an absent key is copied in, a present leaf key is
overwritten. -/
theorem c2_merge_amended_witness :
    mergeWith builtinUnbound [] [("a", .vInt 1)] = .ok (dictSet [] "a" (.vInt 1))
    ∧ mergeWith builtinUnbound [("a", .vInt 1)] [("a", .vInt 2)] =
      .ok (dictSet [("a", .vInt 1)] "a" (.vInt 2)) :=
  ⟨c2_merge_amended.1 builtinUnbound [] "a" (.vInt 1) (by decide),
   c2_merge_amended.2.1 builtinUnbound [("a", .vInt 1)] "a" (.vInt 2)
     (by decide) (by decide)⟩

/-- C3 (counterexample): `set(p, v); get(p) == v` fails.  In the code as
written the very first step of any `set` — `hasattr(__builtin__, key)` in
`Config.__setitem__` — evaluates an unbound name, so `set("A.x", 1)` raises
`NameError` and nothing round-trips.  And even reading `__builtin__` as the
`builtins` module, assigning a `Config` under a section-key final segment
(`set("A", Config({"x": 1}))`, which `__setitem__`'s own `ValueError`
message advertises as the accepted shape) stores nothing — the
`dict.__setitem__` call sits only in the non-section branch — so the
following `get("A")` auto-vivifies and returns a fresh empty section, not
the assigned value. -/
theorem c3_roundtrip_counterexample :
    setPathWith builtinUnbound [] ["A", "x"] (.vInt 1) =
      ([], some (.nameError "__builtin__"))
    ∧ setPathWith builtinModule [] ["A"] (.vConfig [("x", .vInt 1)]) = ([], none)
    ∧ getPathWith builtinModule [] ["A"] = .ok (.vConfig [], [("A", .vConfig [])]) :=
  ⟨rfl, rfl, rfl⟩

/-- C3 (amended): the round-trip `set(p, v); get(p) == v` holds under the
builtins reading when the final segment of `p` is a non-section, non-builtin
key (shown for the representative path `A.x` and every value `v`,
intermediate section auto-vivified); in the code as written every `set`
raises `NameError` (unbound `__builtin__`), and even under the builtins
reading a `Config` assigned at a section-key final segment is silently
discarded, so the subsequent `get` returns a fresh empty section instead. -/
theorem c3_roundtrip_amended :
    (∀ v : PyVal,
      setPathWith builtinModule [] ["A", "x"] v = ([("A", .vConfig [("x", v)])], none)
      ∧ getPathWith builtinModule [("A", .vConfig [("x", v)])] ["A", "x"] =
        .ok (v, [("A", .vConfig [("x", v)])]))
    ∧ setPathWith builtinUnbound [] ["A", "x"] (.vInt 1) =
      ([], some (.nameError "__builtin__"))
    ∧ setPathWith builtinModule [] ["A"] (.vConfig [("x", .vInt 1)]) = ([], none)
    ∧ getPathWith builtinModule [] ["A"] = .ok (.vConfig [], [("A", .vConfig [])]) :=
  ⟨fun _ => ⟨rfl, rfl⟩, rfl, rfl, rfl⟩

/-- C4: the exact token list of the loader's own doctest (lines 365-368).
As written, `load_config` raises `NameError` at the first token — the
assignment `self.config.foo='bar'` enters `Config.__setitem__`, which
evaluates the unbound `__builtin__`; the `except (NameError, SyntaxError)`
retry re-runs the same assignment with `repr(rhs)` and re-raises — leaving
the loader's config empty.  Under the module's documented builtins reading,
the call returns exactly the doctest's config — `foo == "bar"`,
`A.name == "brian"`, `B.number == 0` — with no extra arguments. -/
theorem c4_kv_assign_tokens :
    kvLoadConfigWith builtinUnbound [] [] ["foo='bar'", "A.name='brian'", "B.number=0"] =
      (⟨[], []⟩, some (.nameError "__builtin__"))
    ∧ kvLoadConfigWith builtinModule [] [] ["foo='bar'", "A.name='brian'", "B.number=0"] =
      (⟨[("foo", .vStr "bar"), ("A", .vConfig [("name", .vStr "brian")]),
         ("B", .vConfig [("number", .vInt 0)])], []⟩, none) :=
  ⟨rfl, rfl⟩

/-- C5: tokens `["report.csv", "--verbose"]` with the `verbose` flag mapped
to the payload `{"Log": {"level": 10}}`.  As written, the flag application
`self.config["Log"]` enters `Config.__getitem__`, which evaluates the
unbound `__builtin__`, so `load_config` raises `NameError` with
`extra_args == ["report.csv"]` already collected and the config untouched.
Under the builtins reading the call returns `Log.level == 10` with
`extra_args == ["report.csv"]`; the third conjunct shows the payload is
applied per section by shallow `dict.update` — a pre-existing nested value
under the touched section is replaced wholesale, not recursively merged. -/
theorem c5_flag_payload :
    kvLoadConfigWith builtinUnbound []
        [("verbose", .vDict [("Log", .vDict [("level", .vInt 10)])])]
        ["report.csv", "--verbose"] =
      (⟨[], ["report.csv"]⟩, some (.nameError "__builtin__"))
    ∧ kvLoadConfigWith builtinModule []
        [("verbose", .vDict [("Log", .vDict [("level", .vInt 10)])])]
        ["report.csv", "--verbose"] =
      (⟨[("Log", .vConfig [("level", .vInt 10)])], ["report.csv"]⟩, none)
    ∧ applyFlagWith builtinModule
        ⟨[("Log", .vConfig [("fmt", .vConfig [("a", .vInt 1)])])], []⟩
        [("Log", .vDict [("fmt", .vConfig [("b", .vInt 2)])])] =
      (⟨[("Log", .vConfig [("fmt", .vConfig [("b", .vInt 2)])])], []⟩, none) :=
  ⟨rfl, rfl, rfl⟩

/-- C6: an unrecognized flag.  If the loop consumes a token prefix without
an exception, reaching state `st`, and the next token matches the flag
pattern but not the assignment pattern and its name (the token minus the
leading `--`) is absent from the flags table, then `load_config` raises
`ArgumentError("Unrecognized flag: '<token>'")` and the loader's state at
the raise is exactly `st`: the config and extra-args reflect precisely the
tokens processed before the failing token, which mutates nothing (the raise
at line 453 precedes any state update in the flag branch). -/
theorem c6_unrecognized_flag (aliases : List (String × String))
    (flags : List (String × PyVal)) (pre rest : List String) (st : KVState)
    (t : String)
    (hpre : runTokensWith builtinUnbound aliases flags ⟨[], []⟩ pre = (st, none))
    (hkv : isKvToken t = false) (hflag : isFlagToken t = true)
    (hunknown : flags.lookup (String.mk (t.data.drop 2)) = none) :
    runTokensWith builtinUnbound aliases flags ⟨[], []⟩ (pre ++ t :: rest) =
      (st, some (.argumentError ("Unrecognized flag: " ++ pyRepr t))) := by
  rw [runTokensWith_append builtinUnbound aliases flags pre (t :: rest) _ st hpre]
  simp only [runTokensWith, stepTokenWith, hkv, hflag, hunknown]
  simp

/-- C6 (witness): the scenario `["report.csv", "--bogus"]` with an empty
flags table — `report.csv` is consumed into the extra-args, `--bogus`
raises the unrecognized-flag error, and the state at the raise holds
exactly that one extra argument and an untouched config. -/
theorem c6_unrecognized_flag_witness :
    runTokensWith builtinUnbound [] [] ⟨[], []⟩ (["report.csv"] ++ "--bogus" :: []) =
      (⟨[], ["report.csv"]⟩,
       some (.argumentError ("Unrecognized flag: " ++ pyRepr "--bogus"))) :=
  c6_unrecognized_flag [] [] ["report.csv"] [] ⟨[], ["report.csv"]⟩ "--bogus"
    rfl rfl rfl rfl

/-- C7: failure plumbing of `PyFileConfigLoader`.  (1) When the search path
is exhausted for the top-level file (`filefind` finds nothing),
`load_config` raises the file-not-found `IOError` to its caller.  (2) The
same condition inside a `load_subconfig` call — the sub-loader's
`load_config` raising that `IOError` — is swallowed (`except IOError:
pass`): the statement is a silent no-op on the surrounding config.  (3) A
failure to resolve the named profile directory (`ProfileDirError`) is
likewise a silent no-op.  (4) A concrete surrounding load whose script only
calls `load_subconfig('missing.py')` on an absent file completes without
error, returning the empty config. -/
theorem c7_filenotfound_behavior :
    (∀ (env : PyEnv) (fuel : Nat) (fname : String) (path : Option String),
      env.find fname path = none →
      pyLoadConfigWith builtinUnbound env (fuel + 1) fname path =
        .error (.ioError fname))
    ∧ (∀ (env : PyEnv) (fuel : Nat) (path : Option String) (cfg : Entries)
        (fname : String),
      env.find fname path = none →
      execStmtGen builtinUnbound env (pyLoadConfigWith builtinUnbound env (fuel + 1))
        path cfg (.loadSub fname none) = .ok cfg)
    ∧ (∀ (env : PyEnv) (subLoad : String → Option String → Except PyErr Entries)
        (path : Option String) (cfg : Entries) (fname pr : String),
      env.profileDir pr = none →
      execStmtGen builtinUnbound env subLoad path cfg
        (.loadSub fname (some pr)) = .ok cfg)
    ∧ pyLoadConfigWith builtinUnbound c7Env 9 "top.py" none = .ok [] := by
  refine ⟨?_, ?_, ?_, rfl⟩
  · intro env fuel fname path h
    simp [pyLoadConfigWith, h]
  · intro env fuel path cfg fname h
    simp [execStmtGen, pyLoadConfigWith, h]
  · intro env subLoad path cfg fname pr h
    simp [execStmtGen, h]

/-- C7 (witness): the three quantified parts applied at explicit inputs over
the `c7Env` filesystem: the top-level load of the absent `missing.py` raises
`IOError`; the same load inside `load_subconfig` leaves the surrounding
config `[("a", 1)]` untouched; an unresolvable profile name is skipped. -/
theorem c7_filenotfound_behavior_witness :
    pyLoadConfigWith builtinUnbound c7Env 1 "missing.py" none =
      .error (.ioError "missing.py")
    ∧ execStmtGen builtinUnbound c7Env (pyLoadConfigWith builtinUnbound c7Env 1)
        none [("a", .vInt 1)] (.loadSub "missing.py" none) = .ok [("a", .vInt 1)]
    ∧ execStmtGen builtinUnbound c7Env (fun _ _ => .ok []) none []
        (.loadSub "other.py" (some "p")) = .ok [] :=
  ⟨c7_filenotfound_behavior.1 c7Env 0 "missing.py" none rfl,
   c7_filenotfound_behavior.2.1 c7Env 0 none [("a", .vInt 1)] "missing.py" rfl,
   c7_filenotfound_behavior.2.2.1 c7Env (fun _ _ => .ok []) none [] "other.py" "p" rfl⟩

/-- C8: auto-vivification on read.  In the code as written, reading any key
raises `NameError` (the builtin delegation in `Config.__getitem__` evaluates
the unbound `__builtin__`), so no section is ever vivified.  Under the
builtins reading, the claim's content holds: on a config not storing `"A"`,
the first read stores and returns an empty section, and a second read
returns that same stored section and leaves the config unchanged —
auto-vivification is idempotent. -/
theorem c8_autovivification (cfg : Entries) (h : dictGet cfg "A" = none) :
    getItemWith builtinUnbound cfg "A" = .error (.nameError "__builtin__")
    ∧ getItemWith builtinModule cfg "A" =
      .ok (.vConfig [], dictSet cfg "A" (.vConfig []))
    ∧ getItemWith builtinModule (dictSet cfg "A" (.vConfig [])) "A" =
      .ok (.vConfig [], dictSet cfg "A" (.vConfig [])) := by
  refine ⟨rfl, ?_, ?_⟩
  · simp [getItemWith, builtinModule, pyBuiltinNames, isSectionKey, h]
  · simp [getItemWith, builtinModule, pyBuiltinNames, isSectionKey,
          dictGet_dictSet_self]

/-- C8 (witness): the theorem at the concrete config `[("b", 0)]`, which
does not store `"A"`. -/
theorem c8_autovivification_witness :
    getItemWith builtinUnbound [("b", .vInt 0)] "A" =
      .error (.nameError "__builtin__")
    ∧ getItemWith builtinModule [("b", .vInt 0)] "A" =
      .ok (.vConfig [], dictSet [("b", .vInt 0)] "A" (.vConfig []))
    ∧ getItemWith builtinModule (dictSet [("b", .vInt 0)] "A" (.vConfig [])) "A" =
      .ok (.vConfig [], dictSet [("b", .vInt 0)] "A" (.vConfig [])) :=
  c8_autovivification [("b", .vInt 0)] rfl

/-- C9: section-key classification is purely syntactic.  For any key whose
first ASCII character is unchanged by uppercasing and is not an underscore,
`_is_section_key` is true and `__contains__` is true on every config,
stored or not.  For such a key with a non-letter first character, `"1foo"`:
in the code as written, reading it raises `NameError` (the unbound
`__builtin__` in `__getitem__`) rather than auto-vivifying; under the
builtins reading it auto-vivifies an empty section exactly as the claim
says, rather than failing with `KeyError`. -/
theorem c9_section_key_by_syntax (c : Char) (cs : List Char) (d : Entries)
    (hup : c.toUpper = c) (hund : c ≠ '_') (_hascii : c.toNat < 128) :
    isSectionKey (String.mk (c :: cs)) = true
    ∧ configContains d (String.mk (c :: cs)) = true
    ∧ getItemWith builtinUnbound [] "1foo" = .error (.nameError "__builtin__")
    ∧ getItemWith builtinModule [] "1foo" =
      .ok (.vConfig [], [("1foo", .vConfig [])]) := by
  have hsec : isSectionKey (String.mk (c :: cs)) = true := by
    simp [isSectionKey, hup, hund]
  exact ⟨hsec, by simp [configContains, hsec], rfl, rfl⟩

/-- C9 (witness): the theorem at the digit-headed key `"1foo"` on the empty
config. -/
theorem c9_section_key_by_syntax_witness :
    isSectionKey (String.mk ('1' :: "foo".data)) = true
    ∧ configContains [] (String.mk ('1' :: "foo".data)) = true
    ∧ getItemWith builtinUnbound [] "1foo" = .error (.nameError "__builtin__")
    ∧ getItemWith builtinModule [] "1foo" =
      .ok (.vConfig [], [("1foo", .vConfig [])]) :=
  c9_section_key_by_syntax '1' "foo".data [] rfl (by decide) (by decide)

/-- C10: the write-time restrictions of `Config.__setitem__` are not
invariants of the reachable configs.  `_merge` inserts through the raw
`self.update`: merging `{"A": 5}` into an empty config stores the
non-`Config` value `5` under the section key `"A"` — an entry a direct
`set` of the same key and value rejects (as written, with the `NameError`
every `set` raises; under the builtins reading, with the advertised
`ValueError`).  Likewise `{"print": 5}` is merged in while a direct set of
`"print"` is rejected as builtin-shadowing (`ConfigError`).  And under the
builtins reading, applying a flag payload inserts `Level = 3` into section
`"Log"` through the raw `dict.update`, while a direct set of `"Level"` to
`3` on that section raises `ValueError`. -/
theorem c10_raw_update_bypasses_set :
    mergeWith builtinUnbound [] [("A", .vInt 5)] = .ok [("A", .vInt 5)]
    ∧ setItemWith builtinUnbound [] "A" (.vInt 5) = .error (.nameError "__builtin__")
    ∧ mergeWith builtinModule [] [("A", .vInt 5)] = .ok [("A", .vInt 5)]
    ∧ setItemWith builtinModule [] "A" (.vInt 5) = .error (.valueError "A")
    ∧ mergeWith builtinModule [] [("print", .vInt 5)] = .ok [("print", .vInt 5)]
    ∧ setItemWith builtinModule [] "print" (.vInt 5) = .error (.configError "print")
    ∧ kvLoadConfigWith builtinModule []
        [("f", .vDict [("Log", .vDict [("Level", .vInt 3)])])] ["--f"] =
      (⟨[("Log", .vConfig [("Level", .vInt 3)])], []⟩, none)
    ∧ setItemWith builtinModule [] "Level" (.vInt 3) = .error (.valueError "Level") := by
  refine ⟨?_, rfl, ?_, rfl, ?_, rfl, rfl, rfl⟩
  · simp [mergeWith, mergeLoopWith, configContains, isSectionKey, dictGet,
          dictSet, dictUpdate, bind, Except.bind]
  · simp [mergeWith, mergeLoopWith, configContains, isSectionKey, dictGet,
          dictSet, dictUpdate, bind, Except.bind]
  · simp [mergeWith, mergeLoopWith, configContains, isSectionKey, dictGet,
          dictSet, dictUpdate, bind, Except.bind]
